import Mathlib

/-!
Shallow embedding of the serde_epee EPEE Portable Storage codec.

Byte streams are modelled as `List Nat` with every element < 256; machine
integers are `Nat` with explicit `% 2 ^ w` at the points where the Rust code
can overflow.  Fallible operations return `Except ErrorKind`; decoder
operations that can panic (the source's `read_raw` calls `panic!` on a failed
read) return `DRes`, which has a third `panicked` outcome.
-/

/-! ### constants.rs -/

def PORTABLE_STORAGE_SIGNATURE_SIZE : Nat := 9

def PORTABLE_STORAGE_SIGNATURE : List Nat :=
  [0x01, 0x11, 0x01, 0x01, 0x01, 0x01, 0x02, 0x01, 0x01]

def SERIALIZE_TYPE_UNKNOWN : Nat := 0

def SERIALIZE_TYPE_INT64 : Nat := 1

def SERIALIZE_TYPE_INT32 : Nat := 2

def SERIALIZE_TYPE_INT16 : Nat := 3

def SERIALIZE_TYPE_INT8 : Nat := 4

def SERIALIZE_TYPE_UINT64 : Nat := 5

def SERIALIZE_TYPE_UINT32 : Nat := 6

def SERIALIZE_TYPE_UINT16 : Nat := 7

def SERIALIZE_TYPE_UINT8 : Nat := 8

def SERIALIZE_TYPE_DOUBLE : Nat := 9

def SERIALIZE_TYPE_STRING : Nat := 10

def SERIALIZE_TYPE_BOOL : Nat := 11

def SERIALIZE_TYPE_OBJECT : Nat := 12

def SERIALIZE_FLAG_ARRAY : Nat := 0x80

def MAX_NUM_SECTION_FIELDS : Nat := 10000

def MAX_SECTION_KEY_SIZE : Nat := 255

def MAX_STRING_LEN_POSSIBLE : Nat := 2000000000

/-! ### error.rs -/

/-- Mirror of `ErrorKind` in src/error.rs.  Errors also carry a message in the
source; the claims only speak about the kind, so the embedding keeps the kind
alone. -/
inductive ErrorKind where
  | IOError
  | Custom
  | MissingFormatVersion
  | EnumVariantIndexTooBig
  | VarIntTooBig
  | VarIntTooSmall
  | SerdeModelUnsupported
  | TooManySectionFields
  | NoLength
  | KeyBadType
  | KeyBadEncoding
  | KeyTooLong
  | StringTooLong
  | StringBadEncoding
  | ArrayMixedTypes
  | NestedArrays
  | ArrayTooLong
  | TupleTooLong
  | BadTypeCode
  | ExpectedArray
  | ExpectedArrayEnd
  | ExpectedFormatSignature
  | ExpectedEnd
  | ExpectedScalar
  | NotExpectingArray
  | NotExpectingSection
  | NotExpectingScalar
  | BadUnicodeScalar
  | SizeHintMismatch
  | CompoundMissingArrayType
  | EmptySectionKey
  | TypeMismatch
deriving DecidableEq, Repr

instance {ε α : Type} [DecidableEq ε] [DecidableEq α] : DecidableEq (Except ε α) := fun x y =>
  match x, y with
  | .ok a, .ok b =>
    if h : a = b then isTrue (by rw [h]) else isFalse (fun hc => h (Except.ok.inj hc))
  | .error e, .error f =>
    if h : e = f then isTrue (by rw [h]) else isFalse (fun hc => h (Except.error.inj hc))
  | .ok _, .error _ => isFalse (fun hc => Except.noConfusion hc)
  | .error _, .ok _ => isFalse (fun hc => Except.noConfusion hc)

/-! ### varint.rs -/

def MAX_BYTE_VAL : Nat := 63

def MAX_WORD_VAL : Nat := 16383

def MAX_DWORD_VAL : Nat := 1073741823

def MAX_QWORD_VAL : Nat := 4611686018427387903

def MAX_VARINT_VAL : Nat := MAX_QWORD_VAL

/-- Little-endian byte decomposition of a `u64`, as in `u64::to_le_bytes`. -/
def u64ToLeBytes (x : Nat) : List Nat :=
  [x % 256, x / 2 ^ 8 % 256, x / 2 ^ 16 % 256, x / 2 ^ 24 % 256,
   x / 2 ^ 32 % 256, x / 2 ^ 40 % 256, x / 2 ^ 48 % 256, x / 2 ^ 56 % 256]

/-- Reassembly of a little-endian byte buffer, as in `u64::from_le_bytes`. -/
def u64FromLeBytes : List Nat → Nat
  | [] => 0
  | b :: rest => b + 256 * u64FromLeBytes rest

/-- Mirror of `VarInt` in src/varint.rs: a wrapper around a `u64`.  Every
constructor in the source guarantees `value ≤ MAX_VARINT_VAL`. -/
structure VarInt where
  value : Nat
deriving DecidableEq, Repr

/-- `VarInt::to_writer` (src/varint.rs lines 21-39), with a `Vec<u8>` sink.
The source computes `(self.value << 2) | var_mask` on `u64`; since the low two
bits of `value << 2` are zero, the bitwise or is the addition
`value * 4 + var_mask`, and the `u64` arithmetic wraps at `2 ^ 64`. -/
def varint_to_writer (value : Nat) : List Nat :=
  if value ≤ MAX_BYTE_VAL then (u64ToLeBytes ((value * 4 + 0) % 2 ^ 64)).take 1
  else if value ≤ MAX_WORD_VAL then (u64ToLeBytes ((value * 4 + 1) % 2 ^ 64)).take 2
  else if value ≤ MAX_DWORD_VAL then (u64ToLeBytes ((value * 4 + 2) % 2 ^ 64)).take 4
  else (u64ToLeBytes ((value * 4 + 3) % 2 ^ 64)).take 8

/-- `VarInt::from_reader` (src/varint.rs lines 41-55) over a byte list.
`buf[0] & 0b11` is `b0 % 4`, `1 << var_mask` is `2 ^ var_mask`, and the final
`u64` shift `>> 2` is `/ 4`.  A failed `read_exact` becomes an `IOError`
(the `From<std::io::Error>` conversion in src/error.rs). -/
def varint_from_reader (input : List Nat) : Except ErrorKind (Nat × List Nat) :=
  match input with
  | [] => .error .IOError
  | b0 :: rest =>
    let var_mask := b0 % 4
    let byte_size := 2 ^ var_mask
    if rest.length < byte_size - 1 then .error .IOError
    else
      let buf := (b0 :: rest.take (byte_size - 1)) ++ List.replicate (8 - byte_size) 0
      .ok (u64FromLeBytes buf / 4, rest.drop (byte_size - 1))

/-- `TryFrom<u64> for VarInt` (src/varint.rs lines 134-144).  Note the source
uses `ErrorKind::VarIntTooSmall` here, with the message "u64 value exceeds
maximum varint value". -/
def varint_try_from_u64 (value : Nat) : Except ErrorKind VarInt :=
  if value ≤ MAX_VARINT_VAL then .ok ⟨value⟩ else .error .VarIntTooSmall

/-- `TryFrom<usize> for VarInt` (src/varint.rs lines 146-156); on a 64-bit
host `value as u64` is the identity.  Also uses `ErrorKind::VarIntTooSmall`. -/
def varint_try_from_usize (value : Nat) : Except ErrorKind VarInt :=
  if value ≤ MAX_VARINT_VAL then .ok ⟨value⟩ else .error .VarIntTooSmall

example : varint_to_writer 1 = [4] := by decide

example : varint_to_writer 32 = [128] := by decide

example : varint_from_reader [128] = .ok (32, []) := by decide

example : varint_to_writer 10001 = [0x45, 0x9C] := by decide

/-- Helper: writing a varint and reading it back from the front of a stream
returns the value and the untouched remainder of the stream. -/
theorem varint_roundtrip_append (value : Nat) (rest : List Nat) (h : value ≤ MAX_VARINT_VAL) :
    varint_from_reader (varint_to_writer value ++ rest) = .ok (value, rest) := by
  simp only [MAX_VARINT_VAL, MAX_QWORD_VAL] at h
  by_cases h1 : value ≤ 63
  · have hw : varint_to_writer value = [value * 4] := by
      simp [varint_to_writer, MAX_BYTE_VAL, h1, u64ToLeBytes]
      omega
    have hm : value * 4 % 4 = 0 := by omega
    have hr : List.replicate 7 (0 : Nat) = [0, 0, 0, 0, 0, 0, 0] := rfl
    rw [hw]
    simp only [List.cons_append, List.nil_append]
    simp only [varint_from_reader, hm]
    norm_num
    simp only [hr, u64FromLeBytes, Except.ok.injEq, Prod.mk.injEq, and_true]
    omega
  · by_cases h2 : value ≤ 16383
    · have hw : varint_to_writer value =
          [(value * 4 + 1) % 256, (value * 4 + 1) / 2 ^ 8 % 256] := by
        simp [varint_to_writer, MAX_BYTE_VAL, MAX_WORD_VAL, h1, h2, u64ToLeBytes]
        omega
      have hm : (value * 4 + 1) % 256 % 4 = 1 := by omega
      have hr : List.replicate 6 (0 : Nat) = [0, 0, 0, 0, 0, 0] := rfl
      rw [hw]
      simp only [List.cons_append, List.nil_append]
      simp only [varint_from_reader, hm]
      norm_num
      simp only [hr, u64FromLeBytes, Except.ok.injEq, Prod.mk.injEq, and_true]
      omega
    · by_cases h3 : value ≤ 1073741823
      · have hw : varint_to_writer value =
            [(value * 4 + 2) % 256, (value * 4 + 2) / 2 ^ 8 % 256,
             (value * 4 + 2) / 2 ^ 16 % 256, (value * 4 + 2) / 2 ^ 24 % 256] := by
          simp [varint_to_writer, MAX_BYTE_VAL, MAX_WORD_VAL, MAX_DWORD_VAL, h1, h2, h3,
            u64ToLeBytes]
          omega
        have hm : (value * 4 + 2) % 256 % 4 = 2 := by omega
        have hr : List.replicate 4 (0 : Nat) = [0, 0, 0, 0] := rfl
        rw [hw]
        simp only [List.cons_append, List.nil_append]
        simp only [varint_from_reader, hm]
        norm_num
        rw [if_neg (by omega)]
        simp only [hr, u64FromLeBytes, Except.ok.injEq, Prod.mk.injEq, and_true]
        omega
      · have hw : varint_to_writer value =
            [(value * 4 + 3) % 256, (value * 4 + 3) / 2 ^ 8 % 256,
             (value * 4 + 3) / 2 ^ 16 % 256, (value * 4 + 3) / 2 ^ 24 % 256,
             (value * 4 + 3) / 2 ^ 32 % 256, (value * 4 + 3) / 2 ^ 40 % 256,
             (value * 4 + 3) / 2 ^ 48 % 256, (value * 4 + 3) / 2 ^ 56 % 256] := by
          simp [varint_to_writer, MAX_BYTE_VAL, MAX_WORD_VAL, MAX_DWORD_VAL, h1, h2, h3,
            u64ToLeBytes]
          omega
        have hm : (value * 4 + 3) % 256 % 4 = 3 := by omega
        have hr : List.replicate 0 (0 : Nat) = [] := rfl
        rw [hw]
        simp only [List.cons_append, List.nil_append]
        simp only [varint_from_reader, hm]
        norm_num
        rw [if_neg (by omega)]
        simp only [hr, u64FromLeBytes, List.append_nil, Except.ok.injEq, Prod.mk.injEq, and_true]
        omega

/-! ### ser.rs -/

/-- Mirror of `EpeeStorageFormat` in src/ser.rs. -/
inductive EpeeStorageFormat where
  | Section
  | RootSection
  | Array
  | Packed
  | Unstarted
deriving DecidableEq, Repr

/-- Mirror of the `Serializer` frame state in src/ser.rs.  The borrowed writer
is threaded separately as the accumulated output byte list (the sink in
`to_bytes` is a `Vec<u8>`, whose writes never fail). -/
structure Serializer where
  storage_format : EpeeStorageFormat
  len : Nat
  element_type : Nat
  started : Bool
  serializing_key : Bool
deriving DecidableEq, Repr

/-- `Serializer::new_section` (src/ser.rs lines 59-72). -/
def new_section (len : Nat) : Except ErrorKind Serializer :=
  if len ≤ MAX_NUM_SECTION_FIELDS then
    .ok ⟨.Section, len, SERIALIZE_TYPE_UNKNOWN, false, false⟩
  else .error .TooManySectionFields

/-- `Serializer::new_root_section` (src/ser.rs lines 74-87). -/
def new_root_section (len : Nat) : Except ErrorKind Serializer :=
  if len ≤ MAX_NUM_SECTION_FIELDS then
    .ok ⟨.RootSection, len, SERIALIZE_TYPE_UNKNOWN, false, false⟩
  else .error .TooManySectionFields

/-- `Serializer::new_array` (src/ser.rs lines 89-102). -/
def new_array (len : Nat) : Except ErrorKind Serializer :=
  if len ≤ MAX_NUM_SECTION_FIELDS then
    .ok ⟨.Array, len, SERIALIZE_TYPE_UNKNOWN, false, false⟩
  else .error .TooManySectionFields

/-- `Serializer::new_packed` (src/ser.rs lines 104-117). -/
def new_packed (len : Nat) : Except ErrorKind Serializer :=
  if len ≤ MAX_NUM_SECTION_FIELDS then
    .ok ⟨.Packed, len, SERIALIZE_TYPE_UNKNOWN, false, false⟩
  else .error .TooManySectionFields

/-- `Serializer::new_unstarted` (src/ser.rs lines 119-128). -/
def new_unstarted : Serializer :=
  ⟨.Unstarted, 0, SERIALIZE_TYPE_UNKNOWN, false, false⟩

/-- `Serializer::write_type_code` (src/ser.rs lines 142-146).  The type codes
are at most 12 and the array flag is bit 7, so `type_code | array_mask` is the
addition of the two. -/
def write_type_code (out : List Nat) (type_code : Nat) (is_array : Bool) : List Nat :=
  out ++ [type_code + (if is_array then SERIALIZE_FLAG_ARRAY else 0)]

/-- `Serializer::write_key_string` (src/ser.rs lines 148-157): one length byte
then the raw bytes, at most 255 of them. -/
def write_key_string (out : List Nat) (s : List Nat) : Except ErrorKind (List Nat) :=
  if s.length > MAX_SECTION_KEY_SIZE then .error .KeyTooLong
  else .ok (out ++ [s.length] ++ s)

/-- `Serializer::serialize_start_and_type_code` (src/ser.rs lines 159-192). -/
def serialize_start_and_type_code (sz : Serializer) (out : List Nat) (type_code : Nat) :
    Except ErrorKind (Serializer × List Nat) :=
  let (sz, out) :=
    if sz.started then (sz, out)
    else
      let out :=
        match sz.storage_format with
        | .Section => write_type_code out SERIALIZE_TYPE_OBJECT false
        | .RootSection => out ++ PORTABLE_STORAGE_SIGNATURE
        | .Array => write_type_code out type_code true
        | .Packed => out
        | .Unstarted => out
      let out :=
        if sz.storage_format ≠ .Packed then out ++ varint_to_writer sz.len else out
      ({ sz with element_type := type_code, started := true }, out)
  if sz.storage_format = .Array ∧ type_code ≠ sz.element_type then
    .error .ArrayMixedTypes
  else if sz.serializing_key ∧ type_code ≠ SERIALIZE_TYPE_STRING then
    .error .KeyBadType
  else
    let out :=
      if (sz.storage_format = .Section ∨ sz.storage_format = .RootSection)
          ∧ type_code ≠ SERIALIZE_TYPE_UNKNOWN then
        write_type_code out type_code false
      else out
    .ok (sz, out)

/-- Little-endian bytes of a fixed-width integer, as in `to_le_bytes`; `x` is
the value's bit pattern (two's complement already applied for signed types). -/
def numToLeBytes (width x : Nat) : List Nat :=
  (List.range width).map (fun i => x / 2 ^ (8 * i) % 256)

/-- The serde data model values this serializer supports, as driven by the
serde `Serialize` implementations: primitives, strings/byte strings,
`Option` (`vsome`/`vnone`), sequences with known length (slices and `Vec`,
which call `serialize_seq`), fixed arrays and tuples (which call
`serialize_tuple`), and records with statically known string keys (derived
structs, which call `serialize_struct` and then `serialize_field` per field).
Signed integers, floats and chars follow exactly the same per-scalar shape as
the unsigned cases and are omitted. -/
inductive SValue where
  | vbool (b : Bool)
  | vu8 (n : Nat)
  | vu16 (n : Nat)
  | vu32 (n : Nat)
  | vu64 (n : Nat)
  | vstr (s : List Nat)
  | vnone
  | vsome (v : SValue)
  | vseq (l : List SValue)
  | vtuple (l : List SValue)
  | vstruct (fields : List (List Nat × SValue))

/-- Shared body of the `serialize_num!` macro expansions (src/ser.rs lines
195-227): start the frame with the scalar's type code, then write the
little-endian payload. -/
def serialize_num (sz : Serializer) (out : List Nat) (numcode width x : Nat) :
    Except ErrorKind (Serializer × List Nat) := do
  let (sz, out) ← serialize_start_and_type_code sz out numcode
  .ok (sz, out ++ numToLeBytes width x)

/-- `serialize_bytes` (src/ser.rs lines 247-264); `serialize_str` forwards to
it.  In key position it writes the one-byte-length key form and clears
`serializing_key`; otherwise it writes the type code, a varint length and the
raw bytes (`VarInt::try_from(v.len()).unwrap()` never fails because the length
was just checked against `MAX_STRING_LEN_POSSIBLE < 2 ^ 62`). -/
def serialize_bytes (sz : Serializer) (out : List Nat) (v : List Nat) :
    Except ErrorKind (Serializer × List Nat) :=
  if sz.serializing_key then
    match write_key_string out v with
    | .ok out => .ok ({ sz with serializing_key := false }, out)
    | .error e => .error e
  else if v.length > MAX_STRING_LEN_POSSIBLE then .error .StringTooLong
  else do
    let (sz, out) ← serialize_start_and_type_code sz out SERIALIZE_TYPE_STRING
    .ok (sz, out ++ varint_to_writer v.length ++ v)

mutual

/-- Serialization of one serde value against the current frame, following the
`ser::Serializer` impl in src/ser.rs.  Scalars mutate the current frame;
compound values build a child frame over the same writer (`serialize_seq`
lines 323-337, `serialize_tuple` lines 339-345, `serialize_map` /
`serialize_struct` lines 365-383) and leave the parent frame unchanged.
`serialize_some` (lines 271-276) drops the option wrapper; `serialize_none`
(lines 266-268) is rejected. -/
def serializeSValue (sz : Serializer) (out : List Nat) : SValue →
    Except ErrorKind (Serializer × List Nat)
  | .vbool b => do
    let (sz, out) ← serialize_start_and_type_code sz out SERIALIZE_TYPE_BOOL
    .ok (sz, out ++ [if b then 1 else 0])
  | .vu8 n => serialize_num sz out SERIALIZE_TYPE_UINT8 1 n
  | .vu16 n => serialize_num sz out SERIALIZE_TYPE_UINT16 2 n
  | .vu32 n => serialize_num sz out SERIALIZE_TYPE_UINT32 4 n
  | .vu64 n => serialize_num sz out SERIALIZE_TYPE_UINT64 8 n
  | .vstr s => serialize_bytes sz out s
  | .vnone => .error .SerdeModelUnsupported
  | .vsome v => serializeSValue sz out v
  | .vseq l =>
    if sz.storage_format = .Array then .error .NestedArrays
    else if l.length ≤ MAX_NUM_SECTION_FIELDS then do
      let arr ← new_array l.length
      let (_, out) ← serializeElems arr out l
      .ok (sz, out)
    else .error .ArrayTooLong
  | .vtuple l =>
    if l.length ≤ MAX_NUM_SECTION_FIELDS then do
      let pk ← new_packed l.length
      let (_, out) ← serializeElems pk out l
      .ok (sz, out)
    else .error .TupleTooLong
  | .vstruct fields => do
    let sub ←
      match sz.storage_format with
      | .Unstarted => new_root_section fields.length
      | _ => new_section fields.length
    let (_, out) ← serializeFields sub out fields
    .ok (sz, out)

/-- Element loop of `SerializeSeq` / `SerializeTuple` (src/ser.rs lines
402-441): each element serializes against the child frame; `end` writes
nothing. -/
def serializeElems (sz : Serializer) (out : List Nat) : List SValue →
    Except ErrorKind (Serializer × List Nat)
  | [] => .ok (sz, out)
  | v :: rest => do
    let (sz, out) ← serializeSValue sz out v
    serializeElems sz out rest

/-- Field loop of `SerializeStruct` (src/ser.rs lines 498-519):
`serialize_field` starts the frame with `SERIALIZE_TYPE_UNKNOWN`, writes the
key string, then the value; `end` writes nothing. -/
def serializeFields (sz : Serializer) (out : List Nat) :
    List (List Nat × SValue) → Except ErrorKind (Serializer × List Nat)
  | [] => .ok (sz, out)
  | (k, v) :: rest => do
    let (sz, out) ← serialize_start_and_type_code sz out SERIALIZE_TYPE_UNKNOWN
    let out ← write_key_string out k
    let (sz, out) ← serializeSValue sz out v
    serializeFields sz out rest

end

/-- `to_bytes` (src/ser.rs lines 21-26): serialize against a fresh unstarted
frame into an empty `Vec<u8>`. -/
def to_bytes (v : SValue) : Except ErrorKind (List Nat) := do
  let (_, out) ← serializeSValue new_unstarted [] v
  .ok out

/-! ### de.rs -/

/-- Mirror of `EpeeScalarType` in src/de.rs. -/
inductive EpeeScalarType where
  | Int64
  | Int32
  | Int16
  | Int8
  | UInt64
  | UInt32
  | UInt16
  | UInt8
  | Double
  | Str
  | Bool
  | Object
deriving DecidableEq, Repr

/-- The `TYPES` table inside `EpeeScalarType::from_type_code`. -/
def EPEE_SCALAR_TYPES : List EpeeScalarType :=
  [.Int64, .Int32, .Int16, .Int8, .UInt64, .UInt32, .UInt16, .UInt8,
   .Double, .Str, .Bool, .Object]

/-- `EpeeScalarType::from_type_code` (src/de.rs lines 71-94).  The source
clears the array flag with `type_code & !SERIALIZE_FLAG_ARRAY`; on a byte
value (< 256) that is `type_code % 128`. -/
def epee_scalar_type_from_type_code (type_code : Nat) : Except ErrorKind EpeeScalarType :=
  let scalar_type_code := type_code % 128
  if scalar_type_code = 0 ∨ scalar_type_code > 12 then .error .BadTypeCode
  else .ok (EPEE_SCALAR_TYPES.getD (scalar_type_code - 1) .Int64)

/-- Mirror of `EpeeEntryType` in src/de.rs. -/
structure EpeeEntryType where
  scalar_type : EpeeScalarType
  is_array : Bool
deriving DecidableEq, Repr

/-- `EpeeEntryType::from_type_code` (src/de.rs lines 130-140).  On a byte
value the test `0 != type_code & SERIALIZE_FLAG_ARRAY` is `128 ≤ type_code`. -/
def epee_entry_type_from_type_code (type_code : Nat) : Except ErrorKind EpeeEntryType := do
  let scalar ← epee_scalar_type_from_type_code type_code
  .ok ⟨scalar, decide (SERIALIZE_FLAG_ARRAY ≤ type_code)⟩

/-- Mirror of `DeserState` in src/de.rs. -/
inductive DeserState where
  | ExpectingSection (root : Bool)
  | ExpectingKey
  | ExpectingEntry
  | ExpectingScalar (t : EpeeScalarType)
  | Done
deriving DecidableEq, Repr

/-- Outcome of a decoder step.  Rust functions returning `Result` either
return `Ok`/`Err` or panic; `EpeeDeserializer::read_raw` (src/de.rs lines
175-182) panics on a failed read instead of returning the converted I/O
error, so panicking is a distinct third outcome here. -/
inductive DRes (α : Type) where
  | ok (a : α)
  | err (k : ErrorKind)
  | panicked (msg : String)
deriving DecidableEq, Repr

def DRes.bind {α β : Type} : DRes α → (α → DRes β) → DRes β
  | .ok a, f => f a
  | .err k, _ => .err k
  | .panicked m, _ => .panicked m

instance : Monad DRes where
  pure := DRes.ok
  bind := DRes.bind

/-- Lift of an `Except`-returning helper (such as `VarInt::from_reader`,
whose reads convert I/O errors properly) into the decoder outcome type. -/
def liftE {α : Type} : Except ErrorKind α → DRes α
  | .ok a => .ok a
  | .error k => .err k

/-- `EpeeDeserializer::read_raw` (src/de.rs lines 175-182): on a short read it
executes `panic!("Error reading {} bytes", buf.len())`; the `Err(ioe.into())`
conversion next to it is commented out in the source. -/
def read_raw (n : Nat) (input : List Nat) : DRes (List Nat × List Nat) :=
  if n ≤ input.length then .ok (input.take n, input.drop n)
  else .panicked ("Error reading " ++ toString n ++ " bytes")

/-- `EpeeDeserializer::read_single` (src/de.rs lines 184-190): a failed read
of the single byte is converted into a returned error. -/
def read_single (input : List Nat) : DRes (Nat × List Nat) :=
  match input with
  | [] => .err .IOError
  | b :: rest => .ok (b, rest)

/-- `EpeeDeserializer::read_type_code` (src/de.rs lines 192-194). -/
def read_type_code (input : List Nat) : DRes (EpeeEntryType × List Nat) := do
  let (b, rest) ← read_single input
  let et ← liftE (epee_entry_type_from_type_code b)
  .ok (et, rest)

/-- Shared body of the `deserialize_num!` macro expansions (src/de.rs lines
235-274), parameterized by the target type's associated scalar type and byte
width.  In `ExpectingEntry` the wire type code is consumed and checked
(mismatch is `TypeMismatch`); in `ExpectingScalar` the payload is read with
no check of the declared scalar type.  The payload is read through
`read_raw`, which panics on truncated input.  The returned `Nat` is the raw
little-endian value. -/
def deserialize_num (expected : EpeeScalarType) (width : Nat) (st : DeserState)
    (input : List Nat) : DRes (Nat × DeserState × List Nat) :=
  match st with
  | .ExpectingEntry => do
    let (et, input) ← read_type_code input
    if et.scalar_type ≠ expected then .err .TypeMismatch
    else do
      let (le_bytes, rest) ← read_raw width input
      .ok (u64FromLeBytes le_bytes, .ExpectingEntry, rest)
  | .ExpectingScalar _ => do
    let (le_bytes, rest) ← read_raw width input
    .ok (u64FromLeBytes le_bytes, .ExpectingEntry, rest)
  | _ => .err .NotExpectingScalar

/-- `deserialize_bool` (src/de.rs lines 293-299): reads exactly one byte and
visits `byte != 0`.  It neither inspects nor updates the parser state, and it
never reads or checks a type code. -/
def deserialize_bool (st : DeserState) (input : List Nat) :
    DRes (Bool × DeserState × List Nat) := do
  let (bool_byte, rest) ← read_single input
  .ok (decide (bool_byte ≠ 0), st, rest)

/-- UTF-8 validity of a byte sequence, as decided by `std::str::from_utf8`:
the standard table of well-formed byte sequences (RFC 3629). -/
def isValidUtf8 : List Nat → Bool
  | [] => true
  | b :: rest =>
    if b ≤ 0x7F then isValidUtf8 rest
    else if 0xC2 ≤ b ∧ b ≤ 0xDF then
      match rest with
      | c1 :: r => if 0x80 ≤ c1 ∧ c1 ≤ 0xBF then isValidUtf8 r else false
      | [] => false
    else if b = 0xE0 then
      match rest with
      | c1 :: c2 :: r =>
        if (0xA0 ≤ c1 ∧ c1 ≤ 0xBF) ∧ (0x80 ≤ c2 ∧ c2 ≤ 0xBF) then isValidUtf8 r else false
      | _ => false
    else if (0xE1 ≤ b ∧ b ≤ 0xEC) ∨ b = 0xEE ∨ b = 0xEF then
      match rest with
      | c1 :: c2 :: r =>
        if (0x80 ≤ c1 ∧ c1 ≤ 0xBF) ∧ (0x80 ≤ c2 ∧ c2 ≤ 0xBF) then isValidUtf8 r else false
      | _ => false
    else if b = 0xED then
      match rest with
      | c1 :: c2 :: r =>
        if (0x80 ≤ c1 ∧ c1 ≤ 0x9F) ∧ (0x80 ≤ c2 ∧ c2 ≤ 0xBF) then isValidUtf8 r else false
      | _ => false
    else if b = 0xF0 then
      match rest with
      | c1 :: c2 :: c3 :: r =>
        if (0x90 ≤ c1 ∧ c1 ≤ 0xBF) ∧ (0x80 ≤ c2 ∧ c2 ≤ 0xBF) ∧ (0x80 ≤ c3 ∧ c3 ≤ 0xBF) then
          isValidUtf8 r
        else false
      | _ => false
    else if 0xF1 ≤ b ∧ b ≤ 0xF3 then
      match rest with
      | c1 :: c2 :: c3 :: r =>
        if (0x80 ≤ c1 ∧ c1 ≤ 0xBF) ∧ (0x80 ≤ c2 ∧ c2 ≤ 0xBF) ∧ (0x80 ≤ c3 ∧ c3 ≤ 0xBF) then
          isValidUtf8 r
        else false
      | _ => false
    else if b = 0xF4 then
      match rest with
      | c1 :: c2 :: c3 :: r =>
        if (0x80 ≤ c1 ∧ c1 ≤ 0x8F) ∧ (0x80 ≤ c2 ∧ c2 ≤ 0xBF) ∧ (0x80 ≤ c3 ∧ c3 ≤ 0xBF) then
          isValidUtf8 r
        else false
      | _ => false
    else false

/-- What the decoder hands to the serde visitor for a string read: either a
`visit_str` with the (UTF-8 valid) bytes of the text, or a `visit_bytes` byte
view. -/
inductive Visited where
  | visitedStr (bytes : List Nat)
  | visitedBytes (bytes : List Nat)
deriving DecidableEq, Repr

/-- `deserialize_str` (src/de.rs lines 331-382).  In `ExpectingKey` it reads
a one-byte length `L` (`L = 0` is `EmptySectionKey`), reads `L` bytes through
`read_raw`, and on invalid UTF-8 returns a `StringBadEncoding` error.  In
`ExpectingEntry` it consumes and checks the type code (`TypeMismatch` unless
it is the string code), then in either value state reads a varint length,
checks it against `MAX_STRING_LEN_POSSIBLE`, reads the bytes, and falls back
to a byte view (`visit_bytes`) when they are not valid UTF-8.  The state is
left unchanged. -/
def deserialize_str (st : DeserState) (input : List Nat) :
    DRes (Visited × DeserState × List Nat) :=
  match st with
  | .ExpectingKey => do
    let (strlen, input) ← read_single input
    if strlen = 0 then .err .EmptySectionKey
    else do
      let (strslice, rest) ← read_raw strlen input
      if isValidUtf8 strslice then .ok (.visitedStr strslice, st, rest)
      else .err .StringBadEncoding
  | .ExpectingEntry => do
    let (et, input) ← read_type_code input
    if et.scalar_type ≠ EpeeScalarType.Str then .err .TypeMismatch
    else do
      let (strsize, input) ← liftE (varint_from_reader input)
      if strsize > MAX_STRING_LEN_POSSIBLE then .err .StringTooLong
      else do
        let (strbuf, rest) ← read_raw strsize input
        if isValidUtf8 strbuf then .ok (.visitedStr strbuf, st, rest)
        else .ok (.visitedBytes strbuf, st, rest)
  | .ExpectingScalar _ => do
    let (strsize, input) ← liftE (varint_from_reader input)
    if strsize > MAX_STRING_LEN_POSSIBLE then .err .StringTooLong
    else do
      let (strbuf, rest) ← read_raw strsize input
      if isValidUtf8 strbuf then .ok (.visitedStr strbuf, st, rest)
      else .ok (.visitedBytes strbuf, st, rest)
  | _ => .err .NotExpectingScalar

/-- `deserialize_option` (src/de.rs lines 407-412) together with serde's
`Option` visitor: the body is exactly `visitor.visit_some(self)`, and the
standard `Option<T>` visitor's `visit_some` runs `T::deserialize` on the same
deserializer and wraps the result in `Some`.  `inner` is the inner type's
decode function, applied to the unchanged state and input. -/
def deserialize_option {α : Type} (inner : DeserState → List Nat → DRes (α × DeserState × List Nat))
    (st : DeserState) (input : List Nat) : DRes (Option α × DeserState × List Nat) :=
  match inner st input with
  | .ok (a, st, rest) => .ok (some a, st, rest)
  | .err k => .err k
  | .panicked m => .panicked m

/-- Mirror of `EpeeCompound` in src/de.rs (lines 533-540), minus the borrowed
deserializer, whose reader is the input list threaded through the
functions. -/
structure EpeeCompound where
  remaining : Nat
  started : Bool
  size_hint : Option Nat
  array_type : Option EpeeScalarType
  is_root : Bool
deriving DecidableEq, Repr

/-- `EpeeCompound::new_section` (src/de.rs lines 543-552). -/
def compound_new_section (size_hint : Option Nat) : EpeeCompound :=
  ⟨0, false, size_hint, none, false⟩

/-- `EpeeCompound::new_root_section` (src/de.rs lines 554-563). -/
def compound_new_root_section (size_hint : Option Nat) : EpeeCompound :=
  ⟨0, false, size_hint, none, true⟩

/-- `EpeeCompound::new_array` (src/de.rs lines 565-574). -/
def compound_new_array (size_hint : Option Nat) (array_type : EpeeScalarType) : EpeeCompound :=
  ⟨0, false, size_hint, some array_type, false⟩

/-- `EpeeCompound::validate_signature` (src/de.rs lines 576-580): reads 9
bytes through `read_raw` (panicking on truncated input) and compares them
with the signature. -/
def validate_signature (input : List Nat) : DRes (Bool × List Nat) := do
  let (sigbuf, rest) ← read_raw PORTABLE_STORAGE_SIGNATURE_SIZE input
  .ok (decide (sigbuf = PORTABLE_STORAGE_SIGNATURE), rest)

/-- `EpeeCompound::start_if_necessary` (src/de.rs lines 582-606): on the
first visit, validate the signature when this is the root compound, read the
varint field count into `remaining` (its `try_into::<usize>()` never fails on
a 64-bit host), and compare it against the compile-time size hint if one was
given.  No other check is applied to the count. -/
def start_if_necessary (c : EpeeCompound) (input : List Nat) :
    DRes (EpeeCompound × List Nat) :=
  if c.started then .ok (c, input)
  else do
    let input ←
      if c.is_root then do
        let (good_signature, input) ← validate_signature input
        if ¬ good_signature then .err .ExpectedFormatSignature
        else .ok input
      else .ok input
    let (remaining, input) ← liftE (varint_from_reader input)
    match c.size_hint with
    | some size_hint =>
      if size_hint ≠ remaining then .err .SizeHintMismatch
      else .ok ({ c with remaining := remaining, started := true }, input)
    | none => .ok ({ c with remaining := remaining, started := true }, input)

/-- `MapAccess::next_key_seed` (src/de.rs lines 647-664) with a string key
seed: start the compound if necessary, yield `none` when no fields remain,
otherwise decrement `remaining` and read the key with the deserializer in
`ExpectingKey` state (the state is then set to `ExpectingEntry` for the
value). -/
def next_key (c : EpeeCompound) (input : List Nat) :
    DRes ((Option Visited × EpeeCompound) × List Nat) := do
  let (c, input) ← start_if_necessary c input
  if c.remaining = 0 then .ok ((none, c), input)
  else do
    let c := { c with remaining := c.remaining - 1 }
    let (k, _, input) ← deserialize_str .ExpectingKey input
    .ok ((some k, c), input)

/-! ### Helper lemmas -/

/-- Helper: a `read_raw` of exactly the length of the stream's prefix returns
that prefix and the remainder. -/
theorem read_raw_of_length (pre tail : List Nat) (n : Nat) (h : pre.length = n) :
    read_raw n (pre ++ tail) = .ok (pre, tail) := by
  subst h
  simp [read_raw, List.take_left, List.drop_left]

/-! ### Claims -/

/-- C1: for every unsigned 64-bit value v in [0, 2^62 - 1], writing a VarInt
holding v with `VarInt::to_writer` and then reading the produced bytes back
with `VarInt::from_reader` yields exactly v (and consumes the whole
stream). -/
theorem c1_varint_roundtrip (v : Nat) (h : v ≤ 2 ^ 62 - 1) :
    varint_from_reader (varint_to_writer v) = .ok (v, []) := by
  have hmax : v ≤ MAX_VARINT_VAL := by
    simp only [MAX_VARINT_VAL, MAX_QWORD_VAL]
    omega
  have := varint_roundtrip_append v [] hmax
  simpa using this

/-- Witness for C1 at v = 1234567. -/
theorem c1_varint_roundtrip_witness :
    varint_from_reader (varint_to_writer 1234567) = .ok (1234567, []) :=
  c1_varint_roundtrip 1234567 (by norm_num)

/-- C2: the claim (and the repository's own test `serialize_byte_array` in
tests/ser.rs) says the record `{ txid: [24; 32] }` encodes to the 49-byte
stream with array tag `0x88` and length varint `0x80`.  The code actually
routes the fixed array `[u8; 32]` through `serialize_tuple` (a `Packed`
frame, src/ser.rs lines 339-345), which emits neither a tag nor a length, so
`to_bytes` produces a 47-byte stream without the `88 80` header. -/
theorem c2_byte_array_encoding :
    to_bytes (.vstruct [([116, 120, 105, 100], .vtuple (List.replicate 32 (.vu8 24)))])
      = .ok ([1, 17, 1, 1, 1, 1, 2, 1, 1, 4, 4, 116, 120, 105, 100] ++ List.replicate 32 24)
    ∧ ([1, 17, 1, 1, 1, 1, 2, 1, 1, 4, 4, 116, 120, 105, 100] ++ List.replicate 32 24 : List Nat)
      ≠ [0x01, 0x11, 0x01, 0x01, 0x01, 0x01, 0x02, 0x01, 0x01, 0x04, 0x04, 0x74, 0x78, 0x69,
         0x64, 0x88, 0x80] ++ List.replicate 32 0x18 :=
  ⟨rfl, by decide⟩

/-- C3: the claim says an empty root section encodes to the 9-byte signature
plus a `0x00` varint.  The encoder actually writes nothing at all for an
empty root (the frame prologue runs only on the first field and the
compound's `end` writes nothing), while decoding the 10 bytes
signature ++ `0x00` does yield an empty mapping (the first `next_key` is
`none`). -/
theorem c3_empty_root :
    to_bytes (.vstruct []) = .ok []
    ∧ next_key (compound_new_root_section none) (PORTABLE_STORAGE_SIGNATURE ++ [0])
        = .ok ((none, ⟨0, true, none, none, true⟩), []) :=
  ⟨rfl, rfl⟩

/-- C4 counterexample: a root whose varint field count is 10,001 (bytes
`45 9C`) is accepted by `start_if_necessary` without any
`TooManySectionFields` error, contradicting the claim's second half. -/
theorem c4_count_not_checked :
    start_if_necessary (compound_new_root_section none)
        (PORTABLE_STORAGE_SIGNATURE ++ [0x45, 0x9C])
      = .ok (⟨10001, true, none, none, true⟩, [])
    ∧ 10000 < 10001 :=
  ⟨rfl, by decide⟩

/-- C4 amended: when root deserialization begins, the decoder reads 9 bytes
and fails with `ExpectedFormatSignature` if they differ from the signature;
it then reads a varint field count N, which it stores without any bound
check (the 10,000-field limit is enforced only by the encoder, so no
`TooManySectionFields` error can arise on decode). -/
theorem c4_root_start_behavior :
    (∀ (sig9 tail : List Nat), sig9.length = 9 → sig9 ≠ PORTABLE_STORAGE_SIGNATURE →
      start_if_necessary (compound_new_root_section none) (sig9 ++ tail)
        = .err .ExpectedFormatSignature)
    ∧ (∀ (n : Nat) (tail : List Nat), n ≤ MAX_VARINT_VAL →
      start_if_necessary (compound_new_root_section none)
          (PORTABLE_STORAGE_SIGNATURE ++ varint_to_writer n ++ tail)
        = .ok (⟨n, true, none, none, true⟩, tail)) := by
  constructor
  · intro sig9 tail h9 hne
    unfold start_if_necessary validate_signature
    rw [read_raw_of_length sig9 tail PORTABLE_STORAGE_SIGNATURE_SIZE h9]
    simp [compound_new_root_section, Bind.bind, DRes.bind, hne]
  · intro n tail h
    unfold start_if_necessary validate_signature
    rw [List.append_assoc,
      read_raw_of_length PORTABLE_STORAGE_SIGNATURE _ PORTABLE_STORAGE_SIGNATURE_SIZE rfl]
    simp only [compound_new_root_section, Bind.bind, DRes.bind]
    rw [varint_roundtrip_append n tail h]
    simp [liftE]

/-- Witness for C4 at a 9-byte zero signature and at field count 2. -/
theorem c4_root_start_behavior_witness :
    start_if_necessary (compound_new_root_section none)
        ([0, 0, 0, 0, 0, 0, 0, 0, 0] ++ [])
      = .err .ExpectedFormatSignature
    ∧ start_if_necessary (compound_new_root_section none)
        (PORTABLE_STORAGE_SIGNATURE ++ varint_to_writer 2 ++ [5])
      = .ok (⟨2, true, none, none, true⟩, [5]) :=
  ⟨c4_root_start_behavior.1 [0, 0, 0, 0, 0, 0, 0, 0, 0] [] (by decide) (by decide),
   c4_root_start_behavior.2 2 [5] (by norm_num [MAX_VARINT_VAL, MAX_QWORD_VAL])⟩

/-- C5 counterexample: on decode, an array element slot in state
`ExpectingScalar UInt8` happily serves a `u16` read (consumed type `UInt16`,
two payload bytes) with no error at all, contradicting the claim's decode
half. -/
theorem c5_decode_accepts_mismatch :
    deserialize_num .UInt16 2 (.ExpectingScalar .UInt8) [1, 0]
      = .ok (1, .ExpectingEntry, [])
    ∧ EpeeScalarType.UInt16 ≠ EpeeScalarType.UInt8 :=
  ⟨rfl, by decide⟩

/-- C5 amended: on encode, writing into a started array frame an element
whose computed scalar type code differs from the recorded element type fails
with `ArrayMixedTypes` (before any payload byte is written); on decode,
however, no homogeneity check exists: in `ExpectingScalar` state the element
payload is read and accepted regardless of the array's declared scalar type
(the check is an unimplemented `@TODO` in src/de.rs line 616). -/
theorem c5_array_homogeneity :
    (∀ (sz : Serializer) (out : List Nat) (tc : Nat),
      sz.storage_format = .Array → sz.started = true → tc ≠ sz.element_type →
      serialize_start_and_type_code sz out tc = .error .ArrayMixedTypes)
    ∧ (∀ (expected declared : EpeeScalarType) (width : Nat) (payload tail : List Nat),
      payload.length = width →
      deserialize_num expected width (.ExpectingScalar declared) (payload ++ tail)
        = .ok (u64FromLeBytes payload, .ExpectingEntry, tail)) := by
  constructor
  · intro sz out tc hfmt hstarted hne
    unfold serialize_start_and_type_code
    simp [hfmt, hstarted, hne]
  · intro expected declared width payload tail hlen
    unfold deserialize_num
    rw [read_raw_of_length payload tail width hlen]
    simp [Bind.bind, DRes.bind]

/-- Witness for C5: a started uint8 array frame rejects a bool element with
`ArrayMixedTypes`, and a decode in `ExpectingScalar Bool` state serves a
4-byte `u32` read without complaint. -/
theorem c5_array_homogeneity_witness :
    serialize_start_and_type_code ⟨.Array, 2, SERIALIZE_TYPE_UINT8, true, false⟩ []
        SERIALIZE_TYPE_BOOL
      = .error .ArrayMixedTypes
    ∧ deserialize_num .UInt32 4 (.ExpectingScalar .Bool) ([7, 0, 0, 0] ++ [9])
      = .ok (u64FromLeBytes [7, 0, 0, 0], .ExpectingEntry, [9]) :=
  ⟨c5_array_homogeneity.1 ⟨.Array, 2, SERIALIZE_TYPE_UINT8, true, false⟩ [] SERIALIZE_TYPE_BOOL
      rfl rfl (by decide),
   c5_array_homogeneity.2 .UInt32 .Bool 4 [7, 0, 0, 0] [9] rfl⟩

/-- C6: the claim says every failure of the byte source surfaces as a
returned error.  `EpeeDeserializer::read_raw` (src/de.rs lines 175-182)
instead executes `panic!("Error reading {} bytes", buf.len())` on a short
read — the proper `Err(ioe.into())` conversion next to it is commented out —
so e.g. starting a root decode on an empty stream panics while reading the
9 signature bytes rather than returning an I/O-kind error. -/
theorem c6_read_raw_panics :
    read_raw 9 [] = .panicked "Error reading 9 bytes"
    ∧ start_if_necessary (compound_new_root_section none) []
        = .panicked "Error reading 9 bytes" :=
  ⟨rfl, rfl⟩

/-- C7 counterexample: converting 2^62 (the first value past the varint
range) fails, but the error kind the code attaches is `VarIntTooSmall`, not
`VarIntTooBig` as the claim states (the accompanying message reads "u64
value exceeds maximum varint value"). -/
theorem c7_overflow_kind :
    varint_try_from_u64 (2 ^ 62) = .error .VarIntTooSmall
    ∧ ErrorKind.VarIntTooSmall ≠ ErrorKind.VarIntTooBig :=
  ⟨by decide, by decide⟩

/-- C7 amended: for every u64 or usize value strictly greater than 2^62 - 1,
conversion into a VarInt fails with an error of kind `VarIntTooSmall` (not
`VarIntTooBig`); for every value at most 2^62 - 1 the conversion succeeds
with that value. -/
theorem c7_varint_try_from (v : Nat) :
    (MAX_VARINT_VAL < v →
      varint_try_from_u64 v = .error .VarIntTooSmall
      ∧ varint_try_from_usize v = .error .VarIntTooSmall)
    ∧ (v ≤ MAX_VARINT_VAL →
      varint_try_from_u64 v = .ok ⟨v⟩
      ∧ varint_try_from_usize v = .ok ⟨v⟩) := by
  unfold varint_try_from_u64 varint_try_from_usize
  constructor
  · intro h
    rw [if_neg (by omega)]
    exact ⟨rfl, rfl⟩
  · intro h
    rw [if_pos h]
    exact ⟨rfl, rfl⟩

/-- Witness for C7 at 2^62 (too big) and at 40 (in range). -/
theorem c7_varint_try_from_witness :
    (varint_try_from_u64 (2 ^ 62) = .error .VarIntTooSmall
      ∧ varint_try_from_usize (2 ^ 62) = .error .VarIntTooSmall)
    ∧ (varint_try_from_u64 40 = .ok ⟨40⟩ ∧ varint_try_from_usize 40 = .ok ⟨40⟩) :=
  ⟨(c7_varint_try_from (2 ^ 62)).1 (by norm_num [MAX_VARINT_VAL, MAX_QWORD_VAL]),
   (c7_varint_try_from 40).2 (by norm_num [MAX_VARINT_VAL, MAX_QWORD_VAL])⟩

/-- C8: the claim says every declared scalar type checks the wire tag and
fails with `TypeMismatch` on a mismatch.  The numeric and string paths do
(second and third conjuncts: a uint8 read meeting a uint64 tag `0x05`, and a
string read meeting a uint8 tag `0x08`, both fail with `TypeMismatch`), but
`deserialize_bool` performs no check at all: deserializing a bool in value
position against the uint8-tagged entry `08 01` consumes the tag byte `0x08`
as the bool payload and returns `Ok(true)` — the file-level `@TODO` at the
top of src/de.rs records exactly this missing tag consumption. -/
theorem c8_bool_skips_type_check :
    deserialize_bool .ExpectingEntry [8, 1] = .ok (true, .ExpectingEntry, [1])
    ∧ deserialize_num .UInt8 1 .ExpectingEntry [5, 170] = .err .TypeMismatch
    ∧ deserialize_str .ExpectingEntry [8, 7] = .err .TypeMismatch :=
  ⟨rfl, rfl, rfl⟩

/-- C9 counterexample: a section key whose single byte is `0xFF` (not valid
UTF-8) makes the decoder fail with `StringBadEncoding`; it does not yield a
byte view as the claim states (the byte-view fallback exists only for value
strings). -/
theorem c9_invalid_key_fails :
    deserialize_str .ExpectingKey [1, 0xFF] = .err .StringBadEncoding :=
  rfl

/-- C9 amended: when decoding a section key the decoder reads a 1-byte
length L, fails with `EmptySectionKey` when L = 0, reads L bytes and
attempts UTF-8 decoding; when the L bytes are not valid UTF-8 it fails with
`StringBadEncoding` (only value strings fall back to a byte view). -/
theorem c9_key_decoding :
    (∀ tail : List Nat, deserialize_str .ExpectingKey (0 :: tail) = .err .EmptySectionKey)
    ∧ (∀ bytes tail : List Nat, 1 ≤ bytes.length → bytes.length ≤ 255 →
      deserialize_str .ExpectingKey (bytes.length :: bytes ++ tail)
        = if isValidUtf8 bytes then .ok (.visitedStr bytes, .ExpectingKey, tail)
          else .err .StringBadEncoding) := by
  constructor
  · intro tail
    rfl
  · intro bytes tail hlen _hmax
    unfold deserialize_str
    have hz : bytes.length ≠ 0 := by omega
    rw [show read_single (bytes.length :: bytes ++ tail) = .ok (bytes.length, bytes ++ tail)
      from rfl]
    simp only [Bind.bind, DRes.bind, hz, if_false]
    rw [read_raw_of_length bytes tail bytes.length rfl]

/-- Witness for C9: an empty key errors, and the ASCII key "tx" decodes to a
text view. -/
theorem c9_key_decoding_witness :
    deserialize_str .ExpectingKey (0 :: [7]) = .err .EmptySectionKey
    ∧ deserialize_str .ExpectingKey ([116, 120].length :: [116, 120] ++ [])
      = if isValidUtf8 [116, 120] then .ok (.visitedStr [116, 120], .ExpectingKey, [])
        else .err .StringBadEncoding :=
  ⟨c9_key_decoding.1 [7], c9_key_decoding.2 [116, 120] [] (by decide) (by decide)⟩

/-- C10: options are transparent: `serialize_some` emits exactly the bytes of
the wrapped value (for every frame, accumulated output and value),
`serialize_none` fails with `SerdeModelUnsupported`, and
`deserialize_option` wraps whatever the inner decode produces in `Some`. -/
theorem c10_option_transparent :
    (∀ (sz : Serializer) (out : List Nat) (v : SValue),
      serializeSValue sz out (.vsome v) = serializeSValue sz out v)
    ∧ (∀ (sz : Serializer) (out : List Nat),
      serializeSValue sz out .vnone = .error .SerdeModelUnsupported)
    ∧ (∀ (α : Type) (inner : DeserState → List Nat → DRes (α × DeserState × List Nat))
        (st : DeserState) (input : List Nat) (a : α) (st2 : DeserState) (rest : List Nat),
      inner st input = .ok (a, st2, rest) →
      deserialize_option inner st input = .ok (some a, st2, rest)) := by
  refine ⟨?_, ?_, ?_⟩
  · intro sz out v
    rw [serializeSValue]
  · intro sz out
    rw [serializeSValue]
  · intro α inner st input a st2 rest h
    unfold deserialize_option
    rw [h]

/-- Witness for C10: option transparency at concrete inputs, with the inner
decode being a bool read. -/
theorem c10_option_transparent_witness :
    serializeSValue new_unstarted [] (.vsome (.vstruct [])) =
      serializeSValue new_unstarted [] (.vstruct [])
    ∧ serializeSValue new_unstarted [] .vnone = .error .SerdeModelUnsupported
    ∧ deserialize_option deserialize_bool (.ExpectingScalar .Bool) [1]
      = .ok (some true, .ExpectingScalar .Bool, []) :=
  ⟨c10_option_transparent.1 new_unstarted [] (.vstruct []),
   c10_option_transparent.2.1 new_unstarted [],
   c10_option_transparent.2.2 Bool deserialize_bool (.ExpectingScalar .Bool) [1] true
     (.ExpectingScalar .Bool) [] rfl⟩
